import Mathlib

/-!
Verification of the voxel-engine core of PythonVoxelProject.

The Python source is shallowly embedded: machine integers are modelled as
unbounded `Nat`/`Int` (the source's values stay far below any wrap point),
Python's floor division and modulo on `Int` coincide with Lean's `/` and `%`
(Euclidean, for the positive divisors used here), and PyGLM's C-style
truncating integer division is modelled explicitly.  NumPy arrays are
modelled as total functions; NumPy's negative-index wraparound is modelled
where the source can reach it.
-/

/-! ## Settings (src/settings.py) -/

/-- Size of each chunk in voxels along one dimension (settings.py). -/
def CHUNK_SIZE : ℕ := 32

/-- Area of a chunk in voxels (settings.py). -/
def CHUNK_AREA : ℕ := CHUNK_SIZE * CHUNK_SIZE

/-- Volume of a chunk in voxels (settings.py). -/
def CHUNK_VOLUME : ℕ := CHUNK_AREA * CHUNK_SIZE

/-- World width in chunks (settings.py). -/
def WORLD_WIDTH : ℕ := 10

/-- World height in chunks (settings.py). -/
def WORLD_HEIGHT : ℕ := 3

/-- World depth in chunks (settings.py). -/
def WORLD_DEPTH : ℕ := WORLD_WIDTH

/-- Total world area in chunks (settings.py). -/
def WORLD_AREA : ℕ := WORLD_WIDTH * WORLD_DEPTH

/-- Total world volume in chunks (settings.py). -/
def WORLD_VOLUME : ℕ := WORLD_AREA * WORLD_HEIGHT

/-! ## World voxel storage

`world.voxels` is a NumPy array of shape `WORLD_VOLUME x CHUNK_VOLUME`.
The mesh builder indexes its first axis with an arbitrary integer produced by
`get_chunk_index` (numba compiles the access without a bounds check), so the
model keeps the first index an unrestricted `Int`; the second index is the
in-chunk offset, always reduced to `[0, CHUNK_VOLUME)` before access. -/

/-- The world voxel buffer: chunk index to voxel offset to voxel id. -/
def WorldVoxels : Type := ℤ → ℕ → ℕ

/-- NumPy index semantics for a length-`CHUNK_VOLUME` voxel array: a negative
index wraps once (the source only ever produces indices in
`[-CHUNK_VOLUME, CHUNK_VOLUME)` for these arrays). -/
def npWrap (i : ℤ) : ℕ :=
  if i < 0 then (i + (CHUNK_VOLUME : ℤ)).toNat else i.toNat

/-! ## src/meshes/chunk_mesh_builder.py -/

/-- `get_chunk_index` (chunk_mesh_builder.py).  The guard is transcribed
exactly as written in the source, where Python operator precedence binds
`not` only to the first chained comparison:
`not (0 <= cx < WORLD_WIDTH) and (0 <= cy < WORLD_HEIGHT) and (0 <= cz < WORLD_DEPTH)`. -/
def get_chunk_index (world_voxel_position : ℤ × ℤ × ℤ) : ℤ :=
  if (¬ (0 ≤ world_voxel_position.1 / (CHUNK_SIZE : ℤ) ∧
        world_voxel_position.1 / (CHUNK_SIZE : ℤ) < (WORLD_WIDTH : ℤ))) ∧
      (0 ≤ world_voxel_position.2.1 / (CHUNK_SIZE : ℤ) ∧
        world_voxel_position.2.1 / (CHUNK_SIZE : ℤ) < (WORLD_HEIGHT : ℤ)) ∧
      (0 ≤ world_voxel_position.2.2 / (CHUNK_SIZE : ℤ) ∧
        world_voxel_position.2.2 / (CHUNK_SIZE : ℤ) < (WORLD_DEPTH : ℤ)) then
    -1
  else
    world_voxel_position.1 / (CHUNK_SIZE : ℤ) +
      (WORLD_WIDTH : ℤ) * (world_voxel_position.2.2 / (CHUNK_SIZE : ℤ)) +
      (WORLD_AREA : ℤ) * (world_voxel_position.2.1 / (CHUNK_SIZE : ℤ))

/-- `is_void` (chunk_mesh_builder.py): false when the chunk index is the -1
sentinel or the addressed voxel is non-zero, true otherwise. -/
def is_void (local_voxel_position world_voxel_position : ℤ × ℤ × ℤ)
    (world_voxels : WorldVoxels) : Bool :=
  if get_chunk_index world_voxel_position = -1 then false
  else
    if world_voxels (get_chunk_index world_voxel_position)
        (local_voxel_position.1 % (CHUNK_SIZE : ℤ) +
          local_voxel_position.2.2 % (CHUNK_SIZE : ℤ) * (CHUNK_SIZE : ℤ) +
          local_voxel_position.2.1 % (CHUNK_SIZE : ℤ) * (CHUNK_AREA : ℤ)).toNat ≠ 0 then
      false
    else true

/-- `pack_data` (chunk_mesh_builder.py): shift-and-or packing of the seven
vertex fields, transcribed with the source's bit-width chain. -/
def pack_data (x y z voxel_id face_id ao_id flip_id : ℕ) : ℕ :=
  let b_bit := 6; let c_bit := 6; let d_bit := 8
  let e_bit := 3; let f_bit := 2; let g_bit := 1
  let fg_bit := f_bit + g_bit
  let efg_bit := e_bit + fg_bit
  let defg_bit := d_bit + efg_bit
  let cdefg_bit := c_bit + defg_bit
  let bcdefg_bit := b_bit + cdefg_bit
  x <<< bcdefg_bit ||| y <<< cdefg_bit ||| z <<< defg_bit |||
    voxel_id <<< efg_bit ||| face_id <<< fg_bit ||| ao_id <<< g_bit ||| flip_id

/-! Unpacking, following the spec's fixed bit offsets: x in bits 26 to 31,
y in 20 to 25, z in 14 to 19, voxel id in 6 to 13, face id in 3 to 5,
ao id in 1 to 2, flip in bit 0. -/

/-- Extract the x field (bits 26 to 31) of a packed word. -/
def unpack_x (w : ℕ) : ℕ := w / 2 ^ 26 % 64

/-- Extract the y field (bits 20 to 25) of a packed word. -/
def unpack_y (w : ℕ) : ℕ := w / 2 ^ 20 % 64

/-- Extract the z field (bits 14 to 19) of a packed word. -/
def unpack_z (w : ℕ) : ℕ := w / 2 ^ 14 % 64

/-- Extract the voxel id field (bits 6 to 13) of a packed word. -/
def unpack_voxel_id (w : ℕ) : ℕ := w / 2 ^ 6 % 256

/-- Extract the face id field (bits 3 to 5) of a packed word. -/
def unpack_face_id (w : ℕ) : ℕ := w / 2 ^ 3 % 8

/-- Extract the ao id field (bits 1 to 2) of a packed word. -/
def unpack_ao_id (w : ℕ) : ℕ := w / 2 ^ 1 % 4

/-- Extract the flip field (bit 0) of a packed word. -/
def unpack_flip_id (w : ℕ) : ℕ := w % 2

/-- In-range fields make the ors of `pack_data` disjoint, so the packed word
is the weighted sum of the fields. -/
lemma pack_data_eq_sum (x y z voxel_id face_id ao_id flip_id : ℕ)
    (hx : x < 64) (hy : y < 64) (hz : z < 64) (hv : voxel_id < 256)
    (hf : face_id < 8) (ha : ao_id < 4) (hfl : flip_id < 2) :
    pack_data x y z voxel_id face_id ao_id flip_id =
      2 ^ 26 * x + 2 ^ 20 * y + 2 ^ 14 * z + 2 ^ 6 * voxel_id +
        2 ^ 3 * face_id + 2 ^ 1 * ao_id + flip_id := by
  unfold pack_data
  simp only [Nat.shiftLeft_eq]
  rw [Nat.mul_comm x, Nat.mul_comm y, Nat.mul_comm z, Nat.mul_comm voxel_id,
    Nat.mul_comm face_id, Nat.mul_comm ao_id]
  rw [← Nat.mul_add_lt_is_or (show 2 ^ 20 * y < 2 ^ 26 by omega) x]
  rw [show 2 ^ 26 * x + 2 ^ 20 * y = 2 ^ 20 * (2 ^ 6 * x + y) by ring]
  rw [← Nat.mul_add_lt_is_or (show 2 ^ 14 * z < 2 ^ 20 by omega) (2 ^ 6 * x + y)]
  rw [show 2 ^ 20 * (2 ^ 6 * x + y) + 2 ^ 14 * z =
    2 ^ 14 * (2 ^ 12 * x + 2 ^ 6 * y + z) by ring]
  rw [← Nat.mul_add_lt_is_or (show 2 ^ 6 * voxel_id < 2 ^ 14 by omega)
    (2 ^ 12 * x + 2 ^ 6 * y + z)]
  rw [show 2 ^ 14 * (2 ^ 12 * x + 2 ^ 6 * y + z) + 2 ^ 6 * voxel_id =
    2 ^ 6 * (2 ^ 20 * x + 2 ^ 14 * y + 2 ^ 8 * z + voxel_id) by ring]
  rw [← Nat.mul_add_lt_is_or (show 2 ^ 3 * face_id < 2 ^ 6 by omega)
    (2 ^ 20 * x + 2 ^ 14 * y + 2 ^ 8 * z + voxel_id)]
  rw [show 2 ^ 6 * (2 ^ 20 * x + 2 ^ 14 * y + 2 ^ 8 * z + voxel_id) + 2 ^ 3 * face_id =
    2 ^ 3 * (2 ^ 23 * x + 2 ^ 17 * y + 2 ^ 11 * z + 2 ^ 3 * voxel_id + face_id) by ring]
  rw [← Nat.mul_add_lt_is_or (show 2 ^ 1 * ao_id < 2 ^ 3 by omega)
    (2 ^ 23 * x + 2 ^ 17 * y + 2 ^ 11 * z + 2 ^ 3 * voxel_id + face_id)]
  rw [show 2 ^ 3 * (2 ^ 23 * x + 2 ^ 17 * y + 2 ^ 11 * z + 2 ^ 3 * voxel_id + face_id) +
      2 ^ 1 * ao_id =
    2 ^ 1 * (2 ^ 25 * x + 2 ^ 19 * y + 2 ^ 13 * z + 2 ^ 5 * voxel_id + 2 ^ 2 * face_id +
      ao_id) by ring]
  rw [← Nat.mul_add_lt_is_or (show flip_id < 2 ^ 1 by omega)
    (2 ^ 25 * x + 2 ^ 19 * y + 2 ^ 13 * z + 2 ^ 5 * voxel_id + 2 ^ 2 * face_id + ao_id)]

/-- C5: for all field values within their bit ranges, unpacking the word
produced by `pack_data` at the spec's fixed bit offsets reconstructs exactly
the input fields. -/
theorem pack_unpack_roundtrip (x y z voxel_id face_id ao_id flip_id : ℕ)
    (hx : x < 64) (hy : y < 64) (hz : z < 64) (hv : voxel_id < 256)
    (hf : face_id < 8) (ha : ao_id < 4) (hfl : flip_id < 2) :
    unpack_x (pack_data x y z voxel_id face_id ao_id flip_id) = x ∧
    unpack_y (pack_data x y z voxel_id face_id ao_id flip_id) = y ∧
    unpack_z (pack_data x y z voxel_id face_id ao_id flip_id) = z ∧
    unpack_voxel_id (pack_data x y z voxel_id face_id ao_id flip_id) = voxel_id ∧
    unpack_face_id (pack_data x y z voxel_id face_id ao_id flip_id) = face_id ∧
    unpack_ao_id (pack_data x y z voxel_id face_id ao_id flip_id) = ao_id ∧
    unpack_flip_id (pack_data x y z voxel_id face_id ao_id flip_id) = flip_id := by
  rw [pack_data_eq_sum x y z voxel_id face_id ao_id flip_id hx hy hz hv hf ha hfl]
  unfold unpack_x unpack_y unpack_z unpack_voxel_id unpack_face_id unpack_ao_id
    unpack_flip_id
  refine ⟨?_, ?_, ?_, ?_, ?_, ?_, ?_⟩ <;> omega

/-- Witness for C5 at a concrete input. -/
theorem pack_unpack_roundtrip_witness :
    unpack_x (pack_data 13 7 31 200 5 2 1) = 13 ∧
    unpack_y (pack_data 13 7 31 200 5 2 1) = 7 ∧
    unpack_z (pack_data 13 7 31 200 5 2 1) = 31 ∧
    unpack_voxel_id (pack_data 13 7 31 200 5 2 1) = 200 ∧
    unpack_face_id (pack_data 13 7 31 200 5 2 1) = 5 ∧
    unpack_ao_id (pack_data 13 7 31 200 5 2 1) = 2 ∧
    unpack_flip_id (pack_data 13 7 31 200 5 2 1) = 1 :=
  pack_unpack_roundtrip 13 7 31 200 5 2 1 (by decide) (by decide) (by decide)
    (by decide) (by decide) (by decide) (by decide)

/-! ## build_chunk_mesh (src/meshes/chunk_mesh_builder.py) -/

/-- The `plane` argument of `get_ambient_occlusion`; the source passes one of
the string literals `'X'`, `'Y'`, `'Z'` (any other value would leave the
sample variables unbound). -/
inductive AOPlane where
  | X
  | Y
  | Z
  deriving DecidableEq

/-- `get_ambient_occlusion` (chunk_mesh_builder.py): sample the eight in-plane
neighbors of a face and reduce them to the four corner sums
`(a+b+c, g+h+a, e+f+g, c+d+e)`.  Python booleans add as 0/1. -/
def get_ambient_occlusion (lp wp : ℤ × ℤ × ℤ) (world_voxels : WorldVoxels)
    (plane : AOPlane) : ℕ × ℕ × ℕ × ℕ :=
  let lx := lp.1; let ly := lp.2.1; let lz := lp.2.2
  let wx := wp.1; let wy := wp.2.1; let wz := wp.2.2
  match plane with
  | .Y =>
    let a := (is_void (lx, ly, lz - 1) (wx, wy, wz - 1) world_voxels).toNat
    let b := (is_void (lx - 1, ly, lz - 1) (wx - 1, wy, wz - 1) world_voxels).toNat
    let c := (is_void (lx - 1, ly, lz) (wx - 1, wy, wz) world_voxels).toNat
    let d := (is_void (lx - 1, ly, lz + 1) (wx - 1, wy, wz + 1) world_voxels).toNat
    let e := (is_void (lx, ly, lz + 1) (wx, wy, wz + 1) world_voxels).toNat
    let f := (is_void (lx + 1, ly, lz + 1) (wx + 1, wy, wz + 1) world_voxels).toNat
    let g := (is_void (lx + 1, ly, lz) (wx + 1, wy, wz) world_voxels).toNat
    let h := (is_void (lx + 1, ly, lz - 1) (wx + 1, wy, wz - 1) world_voxels).toNat
    (a + b + c, g + h + a, e + f + g, c + d + e)
  | .X =>
    let a := (is_void (lx, ly, lz - 1) (wx, wy, wz - 1) world_voxels).toNat
    let b := (is_void (lx, ly - 1, lz - 1) (wx, wy - 1, wz - 1) world_voxels).toNat
    let c := (is_void (lx, ly - 1, lz) (wx, wy - 1, wz) world_voxels).toNat
    let d := (is_void (lx, ly - 1, lz + 1) (wx, wy - 1, wz + 1) world_voxels).toNat
    let e := (is_void (lx, ly, lz + 1) (wx, wy, wz + 1) world_voxels).toNat
    let f := (is_void (lx, ly + 1, lz + 1) (wx, wy + 1, wz + 1) world_voxels).toNat
    let g := (is_void (lx, ly + 1, lz) (wx, wy + 1, wz) world_voxels).toNat
    let h := (is_void (lx, ly + 1, lz - 1) (wx, wy + 1, wz - 1) world_voxels).toNat
    (a + b + c, g + h + a, e + f + g, c + d + e)
  | .Z =>
    let a := (is_void (lx - 1, ly, lz) (wx - 1, wy, wz) world_voxels).toNat
    let b := (is_void (lx - 1, ly - 1, lz) (wx - 1, wy - 1, wz) world_voxels).toNat
    let c := (is_void (lx, ly - 1, lz) (wx, wy - 1, wz) world_voxels).toNat
    let d := (is_void (lx + 1, ly - 1, lz) (wx + 1, wy - 1, wz) world_voxels).toNat
    let e := (is_void (lx + 1, ly, lz) (wx + 1, wy, wz) world_voxels).toNat
    let f := (is_void (lx + 1, ly + 1, lz) (wx + 1, wy + 1, wz) world_voxels).toNat
    let g := (is_void (lx, ly + 1, lz) (wx, wy + 1, wz) world_voxels).toNat
    let h := (is_void (lx - 1, ly + 1, lz) (wx - 1, wy + 1, wz) world_voxels).toNat
    (a + b + c, g + h + a, e + f + g, c + d + e)

/-- The per-voxel body of `build_chunk_mesh`'s triple loop: the six face
blocks in source order (top, bottom, right, left, back, front), each emitting
6 packed words via `add_data` when the neighbor `is_void`, in the source's
flip-dependent vertex order.  `add_data`'s sequential writes into the
preallocated buffer are modelled by list concatenation. -/
def emit_voxel (chunk_voxels : ℕ → ℕ) (chunk_position : ℤ × ℤ × ℤ)
    (world_voxels : WorldVoxels) (x y z : ℕ) : List ℕ :=
  if chunk_voxels (x + CHUNK_SIZE * z + CHUNK_AREA * y) = 0 then []
  else
    let voxel_id := chunk_voxels (x + CHUNK_SIZE * z + CHUNK_AREA * y)
    let wx : ℤ := (x : ℤ) + chunk_position.1 * (CHUNK_SIZE : ℤ)
    let wy : ℤ := (y : ℤ) + chunk_position.2.1 * (CHUNK_SIZE : ℤ)
    let wz : ℤ := (z : ℤ) + chunk_position.2.2 * (CHUNK_SIZE : ℤ)
    let top : List ℕ :=
      if is_void ((x : ℤ), (y : ℤ) + 1, (z : ℤ)) (wx, wy + 1, wz) world_voxels then
        let ao := get_ambient_occlusion ((x : ℤ), (y : ℤ) + 1, (z : ℤ)) (wx, wy + 1, wz)
          world_voxels .Y
        let flip_id := decide (ao.2.1 + ao.2.2.2 > ao.1 + ao.2.2.1)
        let v0 := pack_data x (y + 1) z voxel_id 0 ao.1 flip_id.toNat
        let v1 := pack_data (x + 1) (y + 1) z voxel_id 0 ao.2.1 flip_id.toNat
        let v2 := pack_data (x + 1) (y + 1) (z + 1) voxel_id 0 ao.2.2.1 flip_id.toNat
        let v3 := pack_data x (y + 1) (z + 1) voxel_id 0 ao.2.2.2 flip_id.toNat
        if flip_id then [v1, v0, v3, v1, v3, v2] else [v0, v3, v2, v0, v2, v1]
      else []
    let bottom : List ℕ :=
      if is_void ((x : ℤ), (y : ℤ) - 1, (z : ℤ)) (wx, wy - 1, wz) world_voxels then
        let ao := get_ambient_occlusion ((x : ℤ), (y : ℤ) - 1, (z : ℤ)) (wx, wy - 1, wz)
          world_voxels .Y
        let flip_id := decide (ao.2.1 + ao.2.2.2 > ao.1 + ao.2.2.1)
        let v0 := pack_data x y z voxel_id 1 ao.1 flip_id.toNat
        let v1 := pack_data (x + 1) y z voxel_id 1 ao.2.1 flip_id.toNat
        let v2 := pack_data (x + 1) y (z + 1) voxel_id 1 ao.2.2.1 flip_id.toNat
        let v3 := pack_data x y (z + 1) voxel_id 1 ao.2.2.2 flip_id.toNat
        if flip_id then [v1, v3, v0, v1, v2, v3] else [v0, v2, v3, v0, v1, v2]
      else []
    let right : List ℕ :=
      if is_void ((x : ℤ) + 1, (y : ℤ), (z : ℤ)) (wx + 1, wy, wz) world_voxels then
        let ao := get_ambient_occlusion ((x : ℤ) + 1, (y : ℤ), (z : ℤ)) (wx + 1, wy, wz)
          world_voxels .X
        let flip_id := decide (ao.2.1 + ao.2.2.2 > ao.1 + ao.2.2.1)
        let v0 := pack_data (x + 1) y z voxel_id 2 ao.1 flip_id.toNat
        let v1 := pack_data (x + 1) (y + 1) z voxel_id 2 ao.2.1 flip_id.toNat
        let v2 := pack_data (x + 1) (y + 1) (z + 1) voxel_id 2 ao.2.2.1 flip_id.toNat
        let v3 := pack_data (x + 1) y (z + 1) voxel_id 2 ao.2.2.2 flip_id.toNat
        if flip_id then [v3, v0, v1, v3, v1, v2] else [v0, v1, v2, v0, v2, v3]
      else []
    let left : List ℕ :=
      if is_void ((x : ℤ) - 1, (y : ℤ), (z : ℤ)) (wx - 1, wy, wz) world_voxels then
        let ao := get_ambient_occlusion ((x : ℤ) - 1, (y : ℤ), (z : ℤ)) (wx - 1, wy, wz)
          world_voxels .X
        let flip_id := decide (ao.2.1 + ao.2.2.2 > ao.1 + ao.2.2.1)
        let v0 := pack_data x y z voxel_id 3 ao.1 flip_id.toNat
        let v1 := pack_data x (y + 1) z voxel_id 3 ao.2.1 flip_id.toNat
        let v2 := pack_data x (y + 1) (z + 1) voxel_id 3 ao.2.2.1 flip_id.toNat
        let v3 := pack_data x y (z + 1) voxel_id 3 ao.2.2.2 flip_id.toNat
        if flip_id then [v3, v1, v0, v3, v2, v1] else [v0, v2, v1, v0, v3, v2]
      else []
    let back : List ℕ :=
      if is_void ((x : ℤ), (y : ℤ), (z : ℤ) - 1) (wx, wy, wz - 1) world_voxels then
        let ao := get_ambient_occlusion ((x : ℤ), (y : ℤ), (z : ℤ) - 1) (wx, wy, wz - 1)
          world_voxels .Z
        let flip_id := decide (ao.2.1 + ao.2.2.2 > ao.1 + ao.2.2.1)
        let v0 := pack_data x y z voxel_id 4 ao.1 flip_id.toNat
        let v1 := pack_data x (y + 1) z voxel_id 4 ao.2.1 flip_id.toNat
        let v2 := pack_data (x + 1) (y + 1) z voxel_id 4 ao.2.2.1 flip_id.toNat
        let v3 := pack_data (x + 1) y z voxel_id 4 ao.2.2.2 flip_id.toNat
        if flip_id then [v3, v0, v1, v3, v1, v2] else [v0, v1, v2, v0, v2, v3]
      else []
    let front : List ℕ :=
      if is_void ((x : ℤ), (y : ℤ), (z : ℤ) + 1) (wx, wy, wz + 1) world_voxels then
        let ao := get_ambient_occlusion ((x : ℤ), (y : ℤ), (z : ℤ) + 1) (wx, wy, wz + 1)
          world_voxels .Z
        let flip_id := decide (ao.2.1 + ao.2.2.2 > ao.1 + ao.2.2.1)
        let v0 := pack_data x y (z + 1) voxel_id 5 ao.1 flip_id.toNat
        let v1 := pack_data x (y + 1) (z + 1) voxel_id 5 ao.2.1 flip_id.toNat
        let v2 := pack_data (x + 1) (y + 1) (z + 1) voxel_id 5 ao.2.2.1 flip_id.toNat
        let v3 := pack_data (x + 1) y (z + 1) voxel_id 5 ao.2.2.2 flip_id.toNat
        if flip_id then [v3, v1, v0, v3, v2, v1] else [v0, v2, v1, v0, v3, v2]
      else []
    top ++ bottom ++ right ++ left ++ back ++ front

/-- Number of visible faces the voxel at `(x, y, z)` contributes: the same
six `is_void` tests as `emit_voxel`, each counted once. -/
def voxel_visible_faces (chunk_voxels : ℕ → ℕ) (chunk_position : ℤ × ℤ × ℤ)
    (world_voxels : WorldVoxels) (x y z : ℕ) : ℕ :=
  if chunk_voxels (x + CHUNK_SIZE * z + CHUNK_AREA * y) = 0 then 0
  else
    let wx : ℤ := (x : ℤ) + chunk_position.1 * (CHUNK_SIZE : ℤ)
    let wy : ℤ := (y : ℤ) + chunk_position.2.1 * (CHUNK_SIZE : ℤ)
    let wz : ℤ := (z : ℤ) + chunk_position.2.2 * (CHUNK_SIZE : ℤ)
    (if is_void ((x : ℤ), (y : ℤ) + 1, (z : ℤ)) (wx, wy + 1, wz) world_voxels then 1 else 0) +
    (if is_void ((x : ℤ), (y : ℤ) - 1, (z : ℤ)) (wx, wy - 1, wz) world_voxels then 1 else 0) +
    (if is_void ((x : ℤ) + 1, (y : ℤ), (z : ℤ)) (wx + 1, wy, wz) world_voxels then 1 else 0) +
    (if is_void ((x : ℤ) - 1, (y : ℤ), (z : ℤ)) (wx - 1, wy, wz) world_voxels then 1 else 0) +
    (if is_void ((x : ℤ), (y : ℤ), (z : ℤ) - 1) (wx, wy, wz - 1) world_voxels then 1 else 0) +
    (if is_void ((x : ℤ), (y : ℤ), (z : ℤ) + 1) (wx, wy, wz + 1) world_voxels then 1 else 0)

/-- `build_chunk_mesh` (chunk_mesh_builder.py).  The source allocates
`np.empty(CHUNK_VOLUME * 18 * format_size)` (uninitialized), writes `index`
words, and returns the slice `vertex_data[:index + 1]` — one word more than
was written; the content of that extra uninitialized word is the `junk`
parameter. -/
def build_chunk_mesh (chunk_voxels : ℕ → ℕ) (chunk_position : ℤ × ℤ × ℤ)
    (world_voxels : WorldVoxels) (junk : ℕ) : List ℕ :=
  ((List.range CHUNK_SIZE).flatMap fun x =>
    (List.range CHUNK_SIZE).flatMap fun y =>
      (List.range CHUNK_SIZE).flatMap fun z =>
        emit_voxel chunk_voxels chunk_position world_voxels x y z) ++ [junk]

/-- Total number of visible faces of a chunk. -/
def count_visible_faces (chunk_voxels : ℕ → ℕ) (chunk_position : ℤ × ℤ × ℤ)
    (world_voxels : WorldVoxels) : ℕ :=
  ((List.range CHUNK_SIZE).map fun x =>
    ((List.range CHUNK_SIZE).map fun y =>
      ((List.range CHUNK_SIZE).map fun z =>
        voxel_visible_faces chunk_voxels chunk_position world_voxels x y z).sum).sum).sum

/-- Each voxel's emission is 6 words per visible face. -/
lemma emit_voxel_length (chunk_voxels : ℕ → ℕ) (chunk_position : ℤ × ℤ × ℤ)
    (world_voxels : WorldVoxels) (x y z : ℕ) :
    (emit_voxel chunk_voxels chunk_position world_voxels x y z).length =
      6 * voxel_visible_faces chunk_voxels chunk_position world_voxels x y z := by
  unfold emit_voxel voxel_visible_faces
  by_cases hv : chunk_voxels (x + CHUNK_SIZE * z + CHUNK_AREA * y) = 0
  · rw [if_pos hv, if_pos hv]
    rfl
  · rw [if_neg hv, if_neg hv]
    simp only [List.length_append, apply_ite List.length, List.length_cons,
      List.length_nil, ite_self]
    have e : ∀ (c : Prop) (_ : Decidable c), (if c then 6 else 0) = 6 * (if c then 1 else 0) := by
      intro c hc
      split <;> rfl
    rw [e _ _, e _ _, e _ _, e _ _, e _ _, e _ _]
    ring

/-- Helper: a list sum where each entry is 6 times the corresponding entry. -/
lemma sum_map_six {α : Type} (l : List α) (f g : α → ℕ) (h : ∀ a ∈ l, f a = 6 * g a) :
    (l.map f).sum = 6 * (l.map g).sum := by
  induction l with
  | nil => simp
  | cons a t ih =>
    simp only [List.map_cons, List.sum_cons]
    rw [h a (by simp), ih fun b hb => h b (List.mem_cons_of_mem a hb)]
    ring

/-- C1 amended, part 1: for every chunk voxel array, chunk position and world
buffer, the buffer returned by `build_chunk_mesh` holds 6 packed words per
visible face plus exactly one extra trailing word (the uninitialized word
included by the source's `vertex_data[:index + 1]` slice). -/
theorem build_chunk_mesh_length (chunk_voxels : ℕ → ℕ) (chunk_position : ℤ × ℤ × ℤ)
    (world_voxels : WorldVoxels) (junk : ℕ) :
    (build_chunk_mesh chunk_voxels chunk_position world_voxels junk).length =
      6 * count_visible_faces chunk_voxels chunk_position world_voxels + 1 := by
  unfold build_chunk_mesh count_visible_faces
  rw [List.length_append]
  simp only [List.length_flatMap, Function.comp_def, List.length_cons, List.length_nil]
  rw [sum_map_six _ _ _ fun a _ => sum_map_six _ _ _ fun b _ => sum_map_six _ _ _
    fun c _ => emit_voxel_length chunk_voxels chunk_position world_voxels a b c]

/-- Helper: a range sum all of whose terms vanish. -/
lemma list_sum_range_zero (n : ℕ) (f : ℕ → ℕ) (h : ∀ i < n, f i = 0) :
    ((List.range n).map f).sum = 0 := by
  induction n with
  | zero => rfl
  | succ m ih =>
    rw [List.range_succ, List.map_append, List.sum_append,
      ih fun i hi => h i (Nat.lt_succ_of_lt hi)]
    simp [h m (Nat.lt_succ_self m)]

/-- Helper: a range sum all of whose terms vanish except one. -/
lemma list_sum_range_single (n k : ℕ) (f : ℕ → ℕ) (hk : k < n)
    (h : ∀ i < n, i ≠ k → f i = 0) : ((List.range n).map f).sum = f k := by
  induction n with
  | zero => omega
  | succ m ih =>
    rw [List.range_succ, List.map_append, List.sum_append]
    by_cases hkm : k = m
    · rw [list_sum_range_zero m f fun i hi => h i (Nat.lt_succ_of_lt hi) (by omega)]
      simp [hkm]
    · rw [ih (by omega) fun i hi hik => h i (Nat.lt_succ_of_lt hi) hik]
      simp [h m (Nat.lt_succ_self m) fun hmk => hkm hmk.symm]

/-- A world holding a single solid voxel at world position `(5, 5, 5)`
(chunk 0, in-chunk offset `5 + 32*5 + 1024*5 = 5285`). -/
def w_single : WorldVoxels := fun c i => if c = 0 ∧ i = 5285 then 1 else 0

/-- Chunk 0's voxel array of `w_single` (a view into the world buffer). -/
def cv_single : ℕ → ℕ := fun i => w_single 0 i

set_option maxHeartbeats 1000000 in
/-- The single solid voxel of `w_single` is surrounded by empty space, so all
6 of its faces are visible and nothing else contributes. -/
lemma count_single : count_visible_faces cv_single (0, 0, 0) w_single = 6 := by
  have hzero : ∀ x < 32, ∀ y < 32, ∀ z < 32, ¬ (x = 5 ∧ y = 5 ∧ z = 5) →
      voxel_visible_faces cv_single (0, 0, 0) w_single x y z = 0 := by
    intro x hx y hy z hz hne
    have hcv : cv_single (x + CHUNK_SIZE * z + CHUNK_AREA * y) = 0 := by
      unfold cv_single w_single
      rw [if_neg]
      rintro ⟨-, h2⟩
      revert h2
      simp only [CHUNK_SIZE, CHUNK_AREA]
      omega
    unfold voxel_visible_faces
    rw [if_pos hcv]
  have hc : voxel_visible_faces cv_single (0, 0, 0) w_single 5 5 5 = 6 := by decide
  unfold count_visible_faces
  simp only [CHUNK_SIZE]
  refine Eq.trans (list_sum_range_single 32 5 _ (by omega) fun x hx hne =>
    list_sum_range_zero 32 _ fun y hy =>
      list_sum_range_zero 32 _ fun z hz => hzero x hx y hy z hz fun h => hne h.1) ?_
  refine Eq.trans (list_sum_range_single 32 5 _ (by omega) fun y hy hne =>
    list_sum_range_zero 32 _ fun z hz =>
      hzero 5 (by omega) y hy z hz fun h => hne h.2.1) ?_
  refine Eq.trans (list_sum_range_single 32 5 _ (by omega) fun z hz hne =>
    hzero 5 (by omega) 5 (by omega) z hz fun h => hne h.2.2) ?_
  exact hc

/-- C1 counterexample: a chunk containing one solid voxel whose six
face-neighbors are all empty yields a returned array of 37 words (36 written
plus the extra trailing word from `vertex_data[:index + 1]`), not the claimed
exact 36. -/
theorem build_chunk_mesh_single_claim_false :
    (build_chunk_mesh cv_single (0, 0, 0) w_single 0).length = 37 ∧
    count_visible_faces cv_single (0, 0, 0) w_single = 6 := by
  refine ⟨?_, count_single⟩
  rw [build_chunk_mesh_length, count_single]

/-! ## src/voxel_handler.py: get_voxel_id

`VoxelHandler.get_voxel_id` divides the glm `ivec3` position by `CHUNK_SIZE`;
PyGLM performs C-style integer division, truncating toward zero, which is
`Int.tdiv`.  The local position is `voxel_world_position - chunk_position *
CHUNK_SIZE` and the resulting `voxel_index` can be negative, in which case the
NumPy read wraps around.  Out of bounds the source returns the tuple
`0, 0, 0, 0`; the integer `0` standing in the chunk slot is modelled as
`none` (attribute access on it faults). -/

/-- The bounds check of `get_voxel_id`:
`(0 <= cx < WORLD_WIDTH) and (0 <= cy < WORLD_HEIGHT) and (0 <= cz < WORLD_DEPTH)`
on the truncated-division chunk coordinates. -/
def get_voxel_id_in_bounds (p : ℤ × ℤ × ℤ) : Prop :=
  (0 ≤ p.1.tdiv (CHUNK_SIZE : ℤ) ∧ p.1.tdiv (CHUNK_SIZE : ℤ) < (WORLD_WIDTH : ℤ)) ∧
  (0 ≤ p.2.1.tdiv (CHUNK_SIZE : ℤ) ∧ p.2.1.tdiv (CHUNK_SIZE : ℤ) < (WORLD_HEIGHT : ℤ)) ∧
  (0 ≤ p.2.2.tdiv (CHUNK_SIZE : ℤ) ∧ p.2.2.tdiv (CHUNK_SIZE : ℤ) < (WORLD_DEPTH : ℤ))

instance (p : ℤ × ℤ × ℤ) : Decidable (get_voxel_id_in_bounds p) := by
  unfold get_voxel_id_in_bounds; infer_instance

/-- The tuple `voxel_id, voxel_index, voxel_local_position, chunk` returned by
`VoxelHandler.get_voxel_id`. -/
structure GetVoxelResult where
  voxel_id : ℕ
  voxel_index : ℤ
  voxel_local_position : ℤ × ℤ × ℤ
  chunk : Option ℤ
  deriving DecidableEq

/-- The ray caster's chunk index `cx + WORLD_WIDTH * cz + WORLD_AREA * cy`
computed from truncated-division chunk coordinates. -/
def rc_chunk_index (p : ℤ × ℤ × ℤ) : ℤ :=
  p.1.tdiv (CHUNK_SIZE : ℤ) + (WORLD_WIDTH : ℤ) * (p.2.2.tdiv (CHUNK_SIZE : ℤ)) +
    (WORLD_AREA : ℤ) * (p.2.1.tdiv (CHUNK_SIZE : ℤ))

/-- The ray caster's local position `voxel_world_position - chunk_position * CHUNK_SIZE`. -/
def rc_local (p : ℤ × ℤ × ℤ) : ℤ × ℤ × ℤ :=
  (p.1 - p.1.tdiv (CHUNK_SIZE : ℤ) * (CHUNK_SIZE : ℤ),
   p.2.1 - p.2.1.tdiv (CHUNK_SIZE : ℤ) * (CHUNK_SIZE : ℤ),
   p.2.2 - p.2.2.tdiv (CHUNK_SIZE : ℤ) * (CHUNK_SIZE : ℤ))

/-- The ray caster's voxel index `lx + CHUNK_SIZE * lz + CHUNK_AREA * ly`. -/
def rc_voxel_index (p : ℤ × ℤ × ℤ) : ℤ :=
  (rc_local p).1 + (CHUNK_SIZE : ℤ) * (rc_local p).2.2 + (CHUNK_AREA : ℤ) * (rc_local p).2.1

/-- `VoxelHandler.get_voxel_id` (voxel_handler.py). -/
def get_voxel_id (world_voxels : WorldVoxels) (voxel_world_position : ℤ × ℤ × ℤ) :
    GetVoxelResult :=
  if get_voxel_id_in_bounds voxel_world_position then
    { voxel_id := world_voxels (rc_chunk_index voxel_world_position)
        (npWrap (rc_voxel_index voxel_world_position)),
      voxel_index := rc_voxel_index voxel_world_position,
      voxel_local_position := rc_local voxel_world_position,
      chunk := some (rc_chunk_index voxel_world_position) }
  else
    { voxel_id := 0, voxel_index := 0, voxel_local_position := (0, 0, 0), chunk := none }

/-- An everywhere-empty world buffer. -/
def w_empty : WorldVoxels := fun _ _ => 0

/-- An everywhere-solid world buffer. -/
def w_all_solid : WorldVoxels := fun _ _ => 1

/-- C3 counterexample: at the out-of-bounds world position `(-32, 0, 0)` of an
all-solid world, the ray-cast predicate reports id `0` (not occupied: the ray
passes through the world edge), and `is_void` reports `false` (not void: the
edge face is culled) — the opposite of the claim on both counts. -/
theorem boundary_claim_false :
    (get_voxel_id w_all_solid (-32, 0, 0)).voxel_id = 0 ∧
    is_void (-32, 0, 0) (-32, 0, 0) w_all_solid = false := by
  decide

/-- C3 amended: wherever `get_voxel_id`'s own bounds check fails it reports a
zero voxel id and the `0` chunk sentinel (rays pass through the world edge),
and wherever `get_chunk_index` returns the `-1` sentinel `is_void` is false
(the world edge is treated as solid and edge faces are culled). -/
theorem boundary_predicates (w : WorldVoxels) (p lp : ℤ × ℤ × ℤ) :
    (¬ get_voxel_id_in_bounds p →
      (get_voxel_id w p).voxel_id = 0 ∧ (get_voxel_id w p).chunk = none) ∧
    (get_chunk_index p = -1 → is_void lp p w = false) := by
  constructor
  · intro h
    unfold get_voxel_id
    rw [if_neg h]
    exact ⟨rfl, rfl⟩
  · intro h
    unfold is_void
    rw [if_pos h]

/-- Witness for C3 amended at the out-of-bounds position `(-320, 0, 0)`. -/
theorem boundary_predicates_witness :
    ((get_voxel_id w_empty (-320, 0, 0)).voxel_id = 0 ∧
      (get_voxel_id w_empty (-320, 0, 0)).chunk = none) ∧
    is_void (0, 0, 0) (-320, 0, 0) w_empty = false :=
  ⟨(boundary_predicates w_empty (-320, 0, 0) (0, 0, 0)).1 (by decide),
    (boundary_predicates w_empty (-320, 0, 0) (0, 0, 0)).2 (by decide)⟩

/-- In-bounds world voxel positions: every coordinate lies inside the voxel
extent of the world grid. -/
def world_pos_in_bounds (p : ℤ × ℤ × ℤ) : Prop :=
  0 ≤ p.1 ∧ p.1 < (WORLD_WIDTH * CHUNK_SIZE : ℕ) ∧
  0 ≤ p.2.1 ∧ p.2.1 < (WORLD_HEIGHT * CHUNK_SIZE : ℕ) ∧
  0 ≤ p.2.2 ∧ p.2.2 < (WORLD_DEPTH * CHUNK_SIZE : ℕ)

instance (p : ℤ × ℤ × ℤ) : Decidable (world_pos_in_bounds p) := by
  unfold world_pos_in_bounds; infer_instance

/-- C4 counterexample: at the world position `(-1, 0, 0)` the mesh builder's
mapping reports out of bounds (`get_chunk_index` returns `-1`), while the ray
caster's truncating division maps the same position to chunk `0` with the
negative local index `-1` — the two mappings disagree. -/
theorem mapping_mismatch :
    get_chunk_index (-1, 0, 0) = -1 ∧
    (get_voxel_id w_empty (-1, 0, 0)).chunk = some 0 ∧
    (get_voxel_id w_empty (-1, 0, 0)).voxel_index = -1 := by
  decide

/-- C4 amended: on every in-bounds world voxel position, the mesh builder's
floor-division mapping and the ray caster's truncating-division mapping agree:
same chunk index (in range) and the same local voxel index. -/
theorem mapping_consistent (w : WorldVoxels) (p : ℤ × ℤ × ℤ)
    (h : world_pos_in_bounds p) :
    (get_voxel_id w p).chunk = some (get_chunk_index p) ∧
    (get_voxel_id w p).voxel_index =
      p.1 % (CHUNK_SIZE : ℤ) + p.2.2 % (CHUNK_SIZE : ℤ) * (CHUNK_SIZE : ℤ) +
        p.2.1 % (CHUNK_SIZE : ℤ) * (CHUNK_AREA : ℤ) ∧
    0 ≤ get_chunk_index p ∧ get_chunk_index p < (WORLD_VOLUME : ℕ) := by
  unfold world_pos_in_bounds at h
  obtain ⟨h1, h2, h3, h4, h5, h6⟩ := h
  have e1 : p.1.tdiv (CHUNK_SIZE : ℤ) = p.1 / (CHUNK_SIZE : ℤ) :=
    Int.tdiv_eq_ediv h1 (by norm_num [CHUNK_SIZE])
  have e2 : p.2.1.tdiv (CHUNK_SIZE : ℤ) = p.2.1 / (CHUNK_SIZE : ℤ) :=
    Int.tdiv_eq_ediv h3 (by norm_num [CHUNK_SIZE])
  have e3 : p.2.2.tdiv (CHUNK_SIZE : ℤ) = p.2.2 / (CHUNK_SIZE : ℤ) :=
    Int.tdiv_eq_ediv h5 (by norm_num [CHUNK_SIZE])
  simp only [CHUNK_SIZE, WORLD_WIDTH, WORLD_HEIGHT, WORLD_DEPTH] at h2 h4 h6
  push_cast at h2 h4 h6
  have hb : get_voxel_id_in_bounds p := by
    unfold get_voxel_id_in_bounds
    rw [e1, e2, e3]
    simp only [CHUNK_SIZE, WORLD_WIDTH, WORLD_HEIGHT, WORLD_DEPTH]
    push_cast
    omega
  have hg : ¬ ((¬ (0 ≤ p.1 / (CHUNK_SIZE : ℤ) ∧ p.1 / (CHUNK_SIZE : ℤ) < (WORLD_WIDTH : ℤ))) ∧
      (0 ≤ p.2.1 / (CHUNK_SIZE : ℤ) ∧ p.2.1 / (CHUNK_SIZE : ℤ) < (WORLD_HEIGHT : ℤ)) ∧
      (0 ≤ p.2.2 / (CHUNK_SIZE : ℤ) ∧ p.2.2 / (CHUNK_SIZE : ℤ) < (WORLD_DEPTH : ℤ))) := by
    simp only [CHUNK_SIZE, WORLD_WIDTH, WORLD_HEIGHT, WORLD_DEPTH]
    push_cast
    omega
  unfold get_voxel_id get_chunk_index rc_chunk_index rc_voxel_index rc_local
  rw [if_pos hb, if_neg hg, e1, e2, e3]
  refine ⟨rfl, ?_, ?_, ?_⟩ <;>
    · simp only [CHUNK_SIZE, WORLD_WIDTH, WORLD_HEIGHT, WORLD_DEPTH, WORLD_AREA,
        WORLD_VOLUME, CHUNK_AREA]
      push_cast
      omega

/-- Witness for C4 amended at the in-bounds position `(33, 65, 7)`. -/
theorem mapping_consistent_witness :
    (get_voxel_id w_empty (33, 65, 7)).chunk = some (get_chunk_index (33, 65, 7)) ∧
    (get_voxel_id w_empty (33, 65, 7)).voxel_index =
      (33 : ℤ) % (CHUNK_SIZE : ℤ) + (7 : ℤ) % (CHUNK_SIZE : ℤ) * (CHUNK_SIZE : ℤ) +
        (65 : ℤ) % (CHUNK_SIZE : ℤ) * (CHUNK_AREA : ℤ) ∧
    0 ≤ get_chunk_index (33, 65, 7) ∧ get_chunk_index (33, 65, 7) < (WORLD_VOLUME : ℕ) :=
  mapping_consistent w_empty (33, 65, 7) (by decide)

/-! ## VoxelHandler edit operations (src/voxel_handler.py)

The handler stores the last ray hit in `voxel_id`, `voxel_index`,
`voxel_local_position`, `voxel_world_position`, `voxel_normal` and `chunk`.
The mutable world state is the shared voxel buffer plus each chunk's
`is_empty` flag.  Python exceptions (AttributeError on the integer `0`
standing in for a chunk, IndexError on a Python list) are modelled by
`Except.error`. -/

/-- The world state the handler mutates. -/
structure WorldState where
  wv : WorldVoxels
  is_empty : ℤ → Bool

/-- The handler's stored ray-cast result. -/
structure HandlerTarget where
  voxel_id : ℕ
  voxel_index : ℤ
  voxel_local_position : ℤ × ℤ × ℤ
  voxel_world_position : ℤ × ℤ × ℤ
  voxel_normal : ℤ × ℤ × ℤ
  chunk : Option ℤ

/-- `chunk.voxels[i] = v`: a NumPy write through a chunk view, with negative
index wraparound. -/
def write_voxel (w : WorldVoxels) (c : ℤ) (i : ℤ) (v : ℕ) : WorldVoxels :=
  fun c' i' => if c' = c ∧ i' = npWrap i then v else w c' i'

/-- `VoxelHandler.add_voxel` (voxel_handler.py).  When the adjacent position
is out of bounds, `get_voxel_id` returns the integer `0` in the chunk slot
and `chunk.voxels` raises AttributeError (`Except.error`).  The source's
conditional `if chunk.is_empty: chunk.is_empty = False` sets the flag to
false either way. -/
def add_voxel (s : HandlerTarget) (new_voxel_id : ℕ) (st : WorldState) :
    Except Unit WorldState :=
  if s.voxel_id ≠ 0 then
    let result := get_voxel_id st.wv (s.voxel_world_position + s.voxel_normal)
    if result.voxel_id = 0 then
      match result.chunk with
      | none => .error ()
      | some c =>
        .ok { wv := write_voxel st.wv c result.voxel_index new_voxel_id,
              is_empty := fun c' => if c' = c then false else st.is_empty c' }
    else .ok st
  else .ok st

/-- `VoxelHandler.remove_voxel` (voxel_handler.py): zero the targeted voxel.
The `is_empty` flag of the chunk is not touched.  (Mesh rebuilds are modelled
separately by `remove_voxel_rebuilds`.) -/
def remove_voxel (s : HandlerTarget) (st : WorldState) : Except Unit WorldState :=
  if s.voxel_id ≠ 0 then
    match s.chunk with
    | none => .error ()
    | some c => .ok { st with wv := write_voxel st.wv c s.voxel_index 0 }
  else .ok st

/-- Python list subscripting on `world.chunks` (length `WORLD_VOLUME`): an
in-range index is returned as is, a negative index wraps once, anything else
raises IndexError. -/
def py_list_index (n : ℕ) (i : ℤ) : Except Unit ℤ :=
  if 0 ≤ i ∧ i < (n : ℤ) then .ok i
  else if -(n : ℤ) ≤ i ∧ i < 0 then .ok (i + n)
  else .error ()

/-- `VoxelHandler.rebuild_adjacent_chunk` (voxel_handler.py): the list of
chunks whose mesh it rebuilds (by chunk index in `world.chunks`). -/
def rebuild_adjacent_chunk (adjacent_voxel_position : ℤ × ℤ × ℤ) :
    Except Unit (List ℤ) :=
  if get_chunk_index adjacent_voxel_position ≠ -1 then
    (py_list_index WORLD_VOLUME (get_chunk_index adjacent_voxel_position)).map
      fun c => [c]
  else .ok []

/-- `VoxelHandler.rebuild_adjacent_chunks` (voxel_handler.py): per axis, if
the removed voxel's local coordinate is 0 rebuild across the low face, else
if it is `CHUNK_SIZE - 1` rebuild across the high face. -/
def rebuild_adjacent_chunks (s : HandlerTarget) : Except Unit (List ℤ) := do
  let a ←
    if s.voxel_local_position.1 = 0 then
      rebuild_adjacent_chunk (s.voxel_world_position.1 - 1, s.voxel_world_position.2.1,
        s.voxel_world_position.2.2)
    else if s.voxel_local_position.1 = (CHUNK_SIZE : ℤ) - 1 then
      rebuild_adjacent_chunk (s.voxel_world_position.1 + 1, s.voxel_world_position.2.1,
        s.voxel_world_position.2.2)
    else pure []
  let b ←
    if s.voxel_local_position.2.1 = 0 then
      rebuild_adjacent_chunk (s.voxel_world_position.1, s.voxel_world_position.2.1 - 1,
        s.voxel_world_position.2.2)
    else if s.voxel_local_position.2.1 = (CHUNK_SIZE : ℤ) - 1 then
      rebuild_adjacent_chunk (s.voxel_world_position.1, s.voxel_world_position.2.1 + 1,
        s.voxel_world_position.2.2)
    else pure []
  let c ←
    if s.voxel_local_position.2.2 = 0 then
      rebuild_adjacent_chunk (s.voxel_world_position.1, s.voxel_world_position.2.1,
        s.voxel_world_position.2.2 - 1)
    else if s.voxel_local_position.2.2 = (CHUNK_SIZE : ℤ) - 1 then
      rebuild_adjacent_chunk (s.voxel_world_position.1, s.voxel_world_position.2.1,
        s.voxel_world_position.2.2 + 1)
    else pure []
  pure (a ++ b ++ c)

/-- The chunk meshes `VoxelHandler.remove_voxel` rebuilds, in call order: the
targeted voxel's own chunk first, then the adjacent chunks. -/
def remove_voxel_rebuilds (s : HandlerTarget) : Except Unit (List ℤ) :=
  if s.voxel_id ≠ 0 then
    match s.chunk with
    | none => .error ()
    | some c => do
      let r ← rebuild_adjacent_chunks s
      pure (c :: r)
  else .ok []

/-- The handler state after a ray hit on the voxel at world position
`(0, 0, 0)` (chunk 0, local `(0, 0, 0)`, offset 0). -/
def target_origin : HandlerTarget :=
  { voxel_id := 1, voxel_index := 0, voxel_local_position := (0, 0, 0),
    voxel_world_position := (0, 0, 0), voxel_normal := (0, 1, 0), chunk := some 0 }

/-- The handler state after a ray hit on the voxel at world position
`(0, 95, 0)` (chunk 200, local `(0, 31, 0)`, offset `31 * 1024 = 31744`). -/
def target_top : HandlerTarget :=
  { voxel_id := 1, voxel_index := 31744, voxel_local_position := (0, 31, 0),
    voxel_world_position := (0, 95, 0), voxel_normal := (0, 1, 0), chunk := some 200 }

/-- C9 (code bug): removing the voxel at world position `(0, 0, 0)` — which
has no existing neighbor chunk below, behind or to the left — rebuilds, on
top of its own chunk 0, the unrelated chunks 200 and 290: `get_chunk_index`
returns `-100` and `-10` for the out-of-bounds neighbor positions instead of
`-1`, and Python list indexing wraps the negative indices.  Removing the
voxel at `(0, 95, 0)` even raises IndexError (`get_chunk_index` returns 300
for the position above the world). -/
theorem remove_rebuilds_wrong_chunks :
    remove_voxel_rebuilds target_origin = .ok [0, 200, 290] ∧
    remove_voxel_rebuilds target_top = .error () := by
  constructor <;> rfl

/-! ## C8: failed edit preconditions -/

/-- A world state holding solid voxels at world `(0, 0, 0)` and `(0, 1, 0)`
(chunk 0, offsets 0 and 1024). -/
def st_two : WorldState :=
  { wv := fun c i => if c = 0 ∧ (i = 0 ∨ i = 1024) then 1 else 0,
    is_empty := fun c => decide (c ≠ 0) }

/-- C8 counterexample: with the top voxel of the world's top chunk targeted
(at `(0, 95, 0)`, hit on its upward face), the position adjacent to the hit
face is `(0, 96, 0)`, outside the world — and `add_voxel` raises an
AttributeError (modelled `Except.error`) by accessing `.voxels` on the
integer `0` returned in the chunk slot, instead of being a no-op. -/
theorem add_voxel_raises :
    add_voxel target_top 1
      { wv := fun c i => if c = 200 ∧ i = 31744 then 1 else 0,
        is_empty := fun c => decide (c ≠ 200) } = .error () := by
  rfl

/-- C8 amended: `remove_voxel` and `add_voxel` are no-ops when no voxel is
targeted, and `add_voxel` is a no-op when the position adjacent to the hit
face already holds a solid voxel; but when the adjacent position fails the
ray caster's bounds check, `add_voxel` raises an AttributeError rather than
being a no-op. -/
theorem edit_preconditions (s : HandlerTarget) (new_voxel_id : ℕ) (st : WorldState) :
    (s.voxel_id = 0 → remove_voxel s st = .ok st) ∧
    (s.voxel_id = 0 → add_voxel s new_voxel_id st = .ok st) ∧
    (s.voxel_id ≠ 0 →
      (get_voxel_id st.wv (s.voxel_world_position + s.voxel_normal)).voxel_id ≠ 0 →
      add_voxel s new_voxel_id st = .ok st) ∧
    (s.voxel_id ≠ 0 →
      ¬ get_voxel_id_in_bounds (s.voxel_world_position + s.voxel_normal) →
      add_voxel s new_voxel_id st = .error ()) := by
  refine ⟨?_, ?_, ?_, ?_⟩
  · intro h
    unfold remove_voxel
    rw [if_neg (by omega)]
  · intro h
    unfold add_voxel
    rw [if_neg (by omega)]
  · intro h hocc
    unfold add_voxel
    rw [if_pos h, if_neg hocc]
  · intro h hoob
    unfold add_voxel get_voxel_id
    rw [if_pos h, if_neg hoob]
    rfl

/-- Witness for C8 amended: the four cases at concrete states. -/
theorem edit_preconditions_witness :
    (remove_voxel { target_origin with voxel_id := 0 } st_two = .ok st_two) ∧
    (add_voxel { target_origin with voxel_id := 0 } 1 st_two = .ok st_two) ∧
    (add_voxel target_origin 1 st_two = .ok st_two) ∧
    (add_voxel target_top 1 st_two = .error ()) :=
  ⟨(edit_preconditions { target_origin with voxel_id := 0 } 1 st_two).1 rfl,
    (edit_preconditions { target_origin with voxel_id := 0 } 1 st_two).2.1 rfl,
    (edit_preconditions target_origin 1 st_two).2.2.1 (by decide) (by decide),
    (edit_preconditions target_top 1 st_two).2.2.2 (by decide) (by decide)⟩

/-! ## VoxelHandler.cast_ray (src/voxel_handler.py)

The source computes with Python floats; the model uses exact rationals.
`glm.sign` is `intSign`, `glm.fract` is `x - floor x`, and the
`glm.ivec3(x1, y1, z1)` constructor truncates each float toward zero
(`qtrunc`).  `MAX_RAY_DISTANCE` is referenced by `cast_ray` but defined
nowhere in the repository; following the spec's configuration constant
"maximum ray-cast distance", it is a parameter of the model. -/

/-- `glm.sign` on a scalar, as an integer. -/
def intSign (q : ℚ) : ℤ :=
  if 0 < q then 1 else if q < 0 then -1 else 0

/-- `glm.fract`: `x - floor x`. -/
def qfract (q : ℚ) : ℚ := q - ⌊q⌋

/-- C-style float-to-int truncation toward zero, as performed by the
`glm.ivec3` constructor. -/
def qtrunc (q : ℚ) : ℤ := if 0 ≤ q then ⌊q⌋ else -⌊-q⌋

/-- `dx = glm.sign(x2 - x1)` for one axis. -/
def ray_axis_d (p1 p2 : ℚ) : ℤ := intSign (p2 - p1)

/-- `delta_x = min(dx / (x2 - x1), 10000000.0) if dx != 0 else 10000000.0`. -/
def ray_axis_delta (p1 p2 : ℚ) : ℚ :=
  if ray_axis_d p1 p2 ≠ 0 then min ((ray_axis_d p1 p2 : ℚ) / (p2 - p1)) 10000000
  else 10000000

/-- `max_x = delta_x * (1.0 - fract(x1)) if dx > 0 else delta_x * fract(x1)`. -/
def ray_axis_max (p1 p2 : ℚ) : ℚ :=
  if ray_axis_d p1 p2 > 0 then ray_axis_delta p1 p2 * (1 - qfract p1)
  else ray_axis_delta p1 p2 * qfract p1

/-- The loop state of `cast_ray`: current voxel, the three per-axis
boundary-crossing parameters, and the axis advanced on the previous step
(`-1` before the first advance). -/
structure RayState where
  pos : ℤ × ℤ × ℤ
  max_x : ℚ
  max_y : ℚ
  max_z : ℚ
  step_direction : ℤ

/-- The outcome `cast_ray` reports: either no hit, or a hit carrying the
fields the handler stores. -/
inductive RayResult where
  | noHit
  | hit (voxel_id : ℕ) (voxel_index : ℤ) (voxel_local_position : ℤ × ℤ × ℤ)
      (chunk : Option ℤ) (voxel_world_position : ℤ × ℤ × ℤ)
      (voxel_normal : ℤ × ℤ × ℤ)
  deriving DecidableEq

/-- One iteration of `cast_ray`'s while loop: the `not (max_x > 1.0 and
max_y > 1.0 and max_z > 1.0)` test, the voxel query, the hit report with the
face normal chosen by `step_direction`, or the advance along the axis with
the smallest boundary parameter (X, then Z, then Y tie-breaking as in the
source's nested ifs). -/
def ray_step (w : WorldVoxels) (dx dy dz : ℤ) (delta_x delta_y delta_z : ℚ)
    (s : RayState) : RayResult ⊕ RayState :=
  if s.max_x > 1 ∧ s.max_y > 1 ∧ s.max_z > 1 then .inl .noHit
  else if (get_voxel_id w s.pos).voxel_id ≠ 0 then
    .inl (.hit (get_voxel_id w s.pos).voxel_id (get_voxel_id w s.pos).voxel_index
      (get_voxel_id w s.pos).voxel_local_position (get_voxel_id w s.pos).chunk s.pos
      (if s.step_direction = 0 then (-dx, 0, 0)
       else if s.step_direction = 1 then (0, -dy, 0)
       else (0, 0, -dz)))
  else if s.max_x < s.max_y then
    if s.max_x < s.max_z then
      .inr { pos := (s.pos.1 + dx, s.pos.2.1, s.pos.2.2), max_x := s.max_x + delta_x,
             max_y := s.max_y, max_z := s.max_z, step_direction := 0 }
    else
      .inr { pos := (s.pos.1, s.pos.2.1, s.pos.2.2 + dz), max_x := s.max_x,
             max_y := s.max_y, max_z := s.max_z + delta_z, step_direction := 2 }
  else if s.max_y < s.max_z then
    .inr { pos := (s.pos.1, s.pos.2.1 + dy, s.pos.2.2), max_x := s.max_x,
           max_y := s.max_y + delta_y, max_z := s.max_z, step_direction := 1 }
  else
    .inr { pos := (s.pos.1, s.pos.2.1, s.pos.2.2 + dz), max_x := s.max_x,
           max_y := s.max_y, max_z := s.max_z + delta_z, step_direction := 2 }

/-- The while loop of `cast_ray`, with explicit fuel (`none` means the fuel
ran out before the loop finished; `cast_ray_terminates` shows sufficient
fuel always exists). -/
def cast_ray_loop (w : WorldVoxels) (dx dy dz : ℤ) (delta_x delta_y delta_z : ℚ) :
    ℕ → RayState → Option RayResult
  | 0, _ => none
  | fuel + 1, s =>
    match ray_step w dx dy dz delta_x delta_y delta_z s with
    | .inl r => some r
    | .inr s' => cast_ray_loop w dx dy dz delta_x delta_y delta_z fuel s'

/-- `VoxelHandler.cast_ray` (voxel_handler.py): ray start at the player
position, end at `position + forward * MAX_RAY_DISTANCE`. -/
def cast_ray (w : WorldVoxels) (position forward : ℚ × ℚ × ℚ)
    (MAX_RAY_DISTANCE : ℚ) (fuel : ℕ) : Option RayResult :=
  cast_ray_loop w
    (ray_axis_d position.1 (position.1 + forward.1 * MAX_RAY_DISTANCE))
    (ray_axis_d position.2.1 (position.2.1 + forward.2.1 * MAX_RAY_DISTANCE))
    (ray_axis_d position.2.2 (position.2.2 + forward.2.2 * MAX_RAY_DISTANCE))
    (ray_axis_delta position.1 (position.1 + forward.1 * MAX_RAY_DISTANCE))
    (ray_axis_delta position.2.1 (position.2.1 + forward.2.1 * MAX_RAY_DISTANCE))
    (ray_axis_delta position.2.2 (position.2.2 + forward.2.2 * MAX_RAY_DISTANCE))
    fuel
    { pos := (qtrunc position.1, qtrunc position.2.1, qtrunc position.2.2),
      max_x := ray_axis_max position.1 (position.1 + forward.1 * MAX_RAY_DISTANCE),
      max_y := ray_axis_max position.2.1 (position.2.1 + forward.2.1 * MAX_RAY_DISTANCE),
      max_z := ray_axis_max position.2.2 (position.2.2 + forward.2.2 * MAX_RAY_DISTANCE),
      step_direction := -1 }

/-- Iterations until a boundary parameter passes 1, advancing by `d` per
step. -/
def axis_steps (m d : ℚ) : ℕ :=
  if 1 < m then 0 else (⌊(1 - m) / d⌋ + 1).toNat

/-- Loop variant: total remaining advances before all three parameters
exceed 1. -/
def ray_measure (s : RayState) (delta_x delta_y delta_z : ℚ) : ℕ :=
  axis_steps s.max_x delta_x + axis_steps s.max_y delta_y + axis_steps s.max_z delta_z

/-- A fuel budget sufficient for `cast_ray` to finish. -/
def cast_ray_fuel_bound (position forward : ℚ × ℚ × ℚ) (MAX_RAY_DISTANCE : ℚ) : ℕ :=
  axis_steps (ray_axis_max position.1 (position.1 + forward.1 * MAX_RAY_DISTANCE))
      (ray_axis_delta position.1 (position.1 + forward.1 * MAX_RAY_DISTANCE)) +
    axis_steps (ray_axis_max position.2.1 (position.2.1 + forward.2.1 * MAX_RAY_DISTANCE))
      (ray_axis_delta position.2.1 (position.2.1 + forward.2.1 * MAX_RAY_DISTANCE)) +
    axis_steps (ray_axis_max position.2.2 (position.2.2 + forward.2.2 * MAX_RAY_DISTANCE))
      (ray_axis_delta position.2.2 (position.2.2 + forward.2.2 * MAX_RAY_DISTANCE)) + 1

/-- The per-axis step delta is always positive: the sentinel `10000000.0` on
a zero direction component, `min(1/|x2-x1|, 10000000.0) > 0` otherwise. -/
lemma ray_axis_delta_pos (p1 p2 : ℚ) : 0 < ray_axis_delta p1 p2 := by
  rcases lt_trichotomy (p2 - p1) 0 with h | h | h
  · have hs : ray_axis_d p1 p2 = -1 := by
      unfold ray_axis_d intSign
      rw [if_neg (by linarith), if_pos h]
    unfold ray_axis_delta
    rw [hs, if_pos (by decide)]
    refine lt_min ?_ (by norm_num)
    rw [show ((-1 : ℤ) : ℚ) = -1 by norm_num, div_pos_iff]
    right
    exact ⟨by norm_num, h⟩
  · have hs : ray_axis_d p1 p2 = 0 := by
      unfold ray_axis_d intSign
      rw [if_neg (by linarith), if_neg (by linarith)]
    unfold ray_axis_delta
    rw [hs, if_neg (by decide)]
    norm_num
  · have hs : ray_axis_d p1 p2 = 1 := by
      unfold ray_axis_d intSign
      rw [if_pos h]
    unfold ray_axis_delta
    rw [hs, if_pos (by decide)]
    refine lt_min ?_ (by norm_num)
    rw [show ((1 : ℤ) : ℚ) = 1 by norm_num]
    exact div_pos (by norm_num) h

/-- Advancing the axis with parameter at most 1 strictly shrinks its step
count. -/
lemma axis_steps_decrease (m d : ℚ) (hd : 0 < d) (hm : m ≤ 1) :
    axis_steps (m + d) d < axis_steps m d := by
  unfold axis_steps
  rw [if_neg (by linarith : ¬ 1 < m)]
  have h2 : 0 ≤ ⌊(1 - m) / d⌋ := Int.floor_nonneg.mpr (div_nonneg (by linarith) hd.le)
  split
  · omega
  · have e : (1 - (m + d)) / d = (1 - m) / d - 1 := by
      field_simp
      ring
    rw [e, Int.floor_sub_one]
    omega

/-- A continuing `ray_step` advances the axis with the smallest boundary
parameter, which is at most 1, so the loop variant strictly decreases. -/
lemma ray_step_decreases (w : WorldVoxels) (dx dy dz : ℤ) (dX dY dZ : ℚ)
    (hx : 0 < dX) (hy : 0 < dY) (hz : 0 < dZ) (s s' : RayState)
    (h : ray_step w dx dy dz dX dY dZ s = .inr s') :
    ray_measure s' dX dY dZ < ray_measure s dX dY dZ := by
  unfold ray_step at h
  split at h
  · exact Sum.noConfusion h
  · rename_i hcond
    split at h
    · exact Sum.noConfusion h
    · split at h
      · rename_i hxy
        split at h
        · rename_i hxz
          injection h with h
          rw [← h]
          unfold ray_measure
          have hmx : s.max_x ≤ 1 := by
            by_contra hh
            push_neg at hh
            exact hcond ⟨hh, by linarith, by linarith⟩
          have := axis_steps_decrease s.max_x dX hx hmx
          simp only []
          omega
        · rename_i hxz
          injection h with h
          rw [← h]
          unfold ray_measure
          have hmz : s.max_z ≤ 1 := by
            by_contra hh
            push_neg at hh
            push_neg at hxz
            exact hcond ⟨by linarith, by linarith, hh⟩
          have := axis_steps_decrease s.max_z dZ hz hmz
          simp only []
          omega
      · rename_i hxy
        push_neg at hxy
        split at h
        · rename_i hyz
          injection h with h
          rw [← h]
          unfold ray_measure
          have hmy : s.max_y ≤ 1 := by
            by_contra hh
            push_neg at hh
            exact hcond ⟨by linarith, hh, by linarith⟩
          have := axis_steps_decrease s.max_y dY hy hmy
          simp only []
          omega
        · rename_i hyz
          push_neg at hyz
          injection h with h
          rw [← h]
          unfold ray_measure
          have hmz : s.max_z ≤ 1 := by
            by_contra hh
            push_neg at hh
            exact hcond ⟨by linarith, by linarith, hh⟩
          have := axis_steps_decrease s.max_z dZ hz hmz
          simp only []
          omega

/-- With fuel exceeding the loop variant, the loop finishes. -/
lemma cast_ray_loop_isSome (w : WorldVoxels) (dx dy dz : ℤ) (dX dY dZ : ℚ)
    (hx : 0 < dX) (hy : 0 < dY) (hz : 0 < dZ) :
    ∀ (fuel : ℕ) (s : RayState), ray_measure s dX dY dZ < fuel →
      (cast_ray_loop w dx dy dz dX dY dZ fuel s).isSome = true := by
  intro fuel
  induction fuel with
  | zero => intro s h; omega
  | succ n ih =>
    intro s hm
    unfold cast_ray_loop
    cases hstep : ray_step w dx dy dz dX dY dZ s with
    | inl r => simp
    | inr s' =>
      simp only []
      apply ih
      have := ray_step_decreases w dx dy dz dX dY dZ hx hy hz s s' hstep
      omega

/-- C6: for every world, start position, ray direction (zero components
included — they receive the `10000000.0` sentinel delta, no division by
zero) and maximum ray distance, `cast_ray` terminates: with fuel at least
`cast_ray_fuel_bound` the loop returns a result (hit or no-hit) rather than
running forever. -/
theorem cast_ray_terminates (w : WorldVoxels) (position forward : ℚ × ℚ × ℚ)
    (MAX_RAY_DISTANCE : ℚ) (fuel : ℕ)
    (h : cast_ray_fuel_bound position forward MAX_RAY_DISTANCE ≤ fuel) :
    (cast_ray w position forward MAX_RAY_DISTANCE fuel).isSome = true := by
  unfold cast_ray_fuel_bound at h
  unfold cast_ray
  apply cast_ray_loop_isSome w _ _ _ _ _ _ (ray_axis_delta_pos _ _)
    (ray_axis_delta_pos _ _) (ray_axis_delta_pos _ _)
  unfold ray_measure
  simp only []
  omega

/-- Witness for C6: a concrete ray along the x axis (with two degenerate
zero components) in an empty world, with the computed fuel bound. -/
theorem cast_ray_terminates_witness :
    cast_ray_fuel_bound (0, 0, 0) (1, 0, 0) 2 ≤ 5 ∧
    (cast_ray w_empty (0, 0, 0) (1, 0, 0) 2 5).isSome = true := by
  have hb : cast_ray_fuel_bound (0, 0, 0) (1, 0, 0) 2 ≤ 5 := by
    norm_num [cast_ray_fuel_bound, ray_axis_max, ray_axis_delta, ray_axis_d,
      axis_steps, intSign, qfract]
    omega
  exact ⟨hb, cast_ray_terminates w_empty (0, 0, 0) (1, 0, 0) 2 5 hb⟩

/-- Unrolling one continuing loop iteration. -/
lemma cast_ray_loop_inr (w : WorldVoxels) (dx dy dz : ℤ) (dX dY dZ : ℚ) (n : ℕ)
    (s s' : RayState) (h : ray_step w dx dy dz dX dY dZ s = .inr s') :
    cast_ray_loop w dx dy dz dX dY dZ (n + 1) s =
      cast_ray_loop w dx dy dz dX dY dZ n s' := by
  show (match ray_step w dx dy dz dX dY dZ s with
    | .inl r => some r
    | .inr s' => cast_ray_loop w dx dy dz dX dY dZ n s') =
      cast_ray_loop w dx dy dz dX dY dZ n s'
  rw [h]

/-- Unrolling a terminating loop iteration. -/
lemma cast_ray_loop_inl (w : WorldVoxels) (dx dy dz : ℤ) (dX dY dZ : ℚ) (n : ℕ)
    (s : RayState) (r : RayResult) (h : ray_step w dx dy dz dX dY dZ s = .inl r) :
    cast_ray_loop w dx dy dz dX dY dZ (n + 1) s = some r := by
  show (match ray_step w dx dy dz dX dY dZ s with
    | .inl r => some r
    | .inr s' => cast_ray_loop w dx dy dz dX dY dZ n s') = some r
  rw [h]

/-- Axis setup for a constant axis starting at 5: zero direction sign, the
`10000000.0` sentinel delta, and boundary parameter 0 (fract 5 = 0). -/
lemma ray_axis_const5 (M : ℚ) :
    ray_axis_d 5 (5 + 0 * M) = 0 ∧ ray_axis_delta 5 (5 + 0 * M) = 10000000 ∧
      ray_axis_max 5 (5 + 0 * M) = 0 := by
  have hq : (5 : ℚ) + 0 * M - 5 = 0 := by ring
  have hd : ray_axis_d 5 (5 + 0 * M) = 0 := by
    unfold ray_axis_d intSign
    rw [hq, if_neg (by norm_num), if_neg (by norm_num)]
  have hdelta : ray_axis_delta 5 (5 + 0 * M) = 10000000 := by
    unfold ray_axis_delta
    rw [hd, if_neg (by decide)]
  refine ⟨hd, hdelta, ?_⟩
  unfold ray_axis_max
  rw [hd, hdelta, if_neg (by decide), show qfract 5 = 0 by norm_num [qfract]]
  ring

/-- Axis setup for the downward vertical axis from height 10 with ray length
`M ≥ 5`: direction sign -1, delta `1/M`, boundary parameter 0 (fract 10 = 0). -/
lemma ray_axis_vert (M : ℚ) (hM : 5 ≤ M) :
    ray_axis_d 10 (10 + (-1) * M) = -1 ∧
      ray_axis_delta 10 (10 + (-1) * M) = 1 / M ∧
      ray_axis_max 10 (10 + (-1) * M) = 0 := by
  have hM0 : (0 : ℚ) < M := by linarith
  have hq : (10 : ℚ) + (-1) * M - 10 = -M := by ring
  have hd : ray_axis_d 10 (10 + (-1) * M) = -1 := by
    unfold ray_axis_d intSign
    rw [hq, if_neg (by linarith), if_pos (by linarith)]
  have hdelta : ray_axis_delta 10 (10 + (-1) * M) = 1 / M := by
    unfold ray_axis_delta
    rw [hd, if_pos (by decide), hq, show ((-1 : ℤ) : ℚ) = -1 by norm_num, neg_div_neg_eq]
    refine min_eq_left ?_
    calc 1 / M ≤ 1 / 5 := one_div_le_one_div_of_le (by norm_num) hM
      _ ≤ 10000000 := by norm_num
  refine ⟨hd, hdelta, ?_⟩
  unfold ray_axis_max
  rw [hd, hdelta, if_neg (by decide), show qfract 10 = 0 by norm_num [qfract]]
  ring

/-- C7 amended: if the world holds a solid voxel (id `v`) at `(5, 5, 5)`, the
starting voxel `(5, 10, 5)` and every voxel strictly between are empty, and
the maximum ray distance is at least the travel distance 5, then casting
straight down from `(5, 10, 5)` hits `(5, 5, 5)` with face normal
`(0, 1, 0)` (for any fuel of at least the 8 iterations the march takes). -/
theorem cast_ray_straight_down (w : WorldVoxels) (M : ℚ) (v k : ℕ)
    (hM : 5 ≤ M)
    (h10 : w 0 10405 = 0) (h9 : w 0 9381 = 0) (h8 : w 0 8357 = 0)
    (h7 : w 0 7333 = 0) (h6 : w 0 6309 = 0) (h5 : w 0 5285 = v) (hv : v ≠ 0) :
    cast_ray w (5, 10, 5) (0, -1, 0) M (8 + k) =
      some (.hit v 5285 (5, 5, 5) (some 0) (5, 5, 5) (0, 1, 0)) := by
  obtain ⟨hdx, hDx, hMx⟩ := ray_axis_const5 M
  obtain ⟨hdy, hDy, hMy⟩ := ray_axis_vert M hM
  have hM0 : (0 : ℚ) < M := by linarith
  have ht0 : (0 : ℚ) < 1 / M := by positivity
  have ht5 : (1 : ℚ) / M ≤ 1 / 5 := one_div_le_one_div_of_le (by norm_num) hM
  have hstep1 : ray_step w 0 (-1) 0 10000000 (1 / M) 10000000
      ⟨(5, 10, 5), 0, 0, 0, -1⟩ =
      .inr ⟨(5, 10, 5), 0, 0, 0 + 10000000, 2⟩ := by
    unfold ray_step
    rw [if_neg (by rintro ⟨h1, -, -⟩; norm_num at h1),
      if_neg (fun hc => hc ((show (get_voxel_id w (5, 10, 5)).voxel_id = w 0 10405
        from rfl).trans h10)),
      if_neg (by norm_num : ¬ ((0 : ℚ) < 0)), if_neg (by norm_num : ¬ ((0 : ℚ) < 0))]
    rfl
  have hstep2 : ray_step w 0 (-1) 0 10000000 (1 / M) 10000000
      ⟨(5, 10, 5), 0, 0, 0 + 10000000, 2⟩ =
      .inr ⟨(5, 9, 5), 0, 0 + 1 / M, 0 + 10000000, 1⟩ := by
    unfold ray_step
    rw [if_neg (by rintro ⟨h1, -, -⟩; norm_num at h1),
      if_neg (fun hc => hc ((show (get_voxel_id w (5, 10, 5)).voxel_id = w 0 10405
        from rfl).trans h10)),
      if_neg (by norm_num : ¬ ((0 : ℚ) < 0)),
      if_pos (by norm_num : (0 : ℚ) < 0 + 10000000)]
    rfl
  have hstep3 : ray_step w 0 (-1) 0 10000000 (1 / M) 10000000
      ⟨(5, 9, 5), 0, 0 + 1 / M, 0 + 10000000, 1⟩ =
      .inr ⟨(5, 9, 5), 0 + 10000000, 0 + 1 / M, 0 + 10000000, 0⟩ := by
    unfold ray_step
    rw [if_neg (by rintro ⟨h1, -, -⟩; norm_num at h1),
      if_neg (fun hc => hc ((show (get_voxel_id w (5, 9, 5)).voxel_id = w 0 9381
        from rfl).trans h9)),
      if_pos (by linarith : (0 : ℚ) < 0 + 1 / M),
      if_pos (by norm_num : (0 : ℚ) < 0 + 10000000)]
    rfl
  have hstep4 : ray_step w 0 (-1) 0 10000000 (1 / M) 10000000
      ⟨(5, 9, 5), 0 + 10000000, 0 + 1 / M, 0 + 10000000, 0⟩ =
      .inr ⟨(5, 8, 5), 0 + 10000000, 0 + 1 / M + 1 / M, 0 + 10000000, 1⟩ := by
    unfold ray_step
    rw [if_neg (by rintro ⟨-, h2, -⟩; linarith),
      if_neg (fun hc => hc ((show (get_voxel_id w (5, 9, 5)).voxel_id = w 0 9381
        from rfl).trans h9)),
      if_neg (by linarith : ¬ ((0 : ℚ) + 10000000 < 0 + 1 / M)),
      if_pos (by linarith : (0 : ℚ) + 1 / M < 0 + 10000000)]
    rfl
  have hstep5 : ray_step w 0 (-1) 0 10000000 (1 / M) 10000000
      ⟨(5, 8, 5), 0 + 10000000, 0 + 1 / M + 1 / M, 0 + 10000000, 1⟩ =
      .inr ⟨(5, 7, 5), 0 + 10000000, 0 + 1 / M + 1 / M + 1 / M, 0 + 10000000, 1⟩ := by
    unfold ray_step
    rw [if_neg (by rintro ⟨-, h2, -⟩; linarith),
      if_neg (fun hc => hc ((show (get_voxel_id w (5, 8, 5)).voxel_id = w 0 8357
        from rfl).trans h8)),
      if_neg (by linarith : ¬ ((0 : ℚ) + 10000000 < 0 + 1 / M + 1 / M)),
      if_pos (by linarith : (0 : ℚ) + 1 / M + 1 / M < 0 + 10000000)]
    rfl
  have hstep6 : ray_step w 0 (-1) 0 10000000 (1 / M) 10000000
      ⟨(5, 7, 5), 0 + 10000000, 0 + 1 / M + 1 / M + 1 / M, 0 + 10000000, 1⟩ =
      .inr ⟨(5, 6, 5), 0 + 10000000, 0 + 1 / M + 1 / M + 1 / M + 1 / M,
        0 + 10000000, 1⟩ := by
    unfold ray_step
    rw [if_neg (by rintro ⟨-, h2, -⟩; linarith),
      if_neg (fun hc => hc ((show (get_voxel_id w (5, 7, 5)).voxel_id = w 0 7333
        from rfl).trans h7)),
      if_neg (by linarith : ¬ ((0 : ℚ) + 10000000 < 0 + 1 / M + 1 / M + 1 / M)),
      if_pos (by linarith : (0 : ℚ) + 1 / M + 1 / M + 1 / M < 0 + 10000000)]
    rfl
  have hstep7 : ray_step w 0 (-1) 0 10000000 (1 / M) 10000000
      ⟨(5, 6, 5), 0 + 10000000, 0 + 1 / M + 1 / M + 1 / M + 1 / M, 0 + 10000000, 1⟩ =
      .inr ⟨(5, 5, 5), 0 + 10000000, 0 + 1 / M + 1 / M + 1 / M + 1 / M + 1 / M,
        0 + 10000000, 1⟩ := by
    unfold ray_step
    rw [if_neg (by rintro ⟨-, h2, -⟩; linarith),
      if_neg (fun hc => hc ((show (get_voxel_id w (5, 6, 5)).voxel_id = w 0 6309
        from rfl).trans h6)),
      if_neg (by linarith :
        ¬ ((0 : ℚ) + 10000000 < 0 + 1 / M + 1 / M + 1 / M + 1 / M)),
      if_pos (by linarith : (0 : ℚ) + 1 / M + 1 / M + 1 / M + 1 / M < 0 + 10000000)]
    rfl
  have hstep8 : ray_step w 0 (-1) 0 10000000 (1 / M) 10000000
      ⟨(5, 5, 5), 0 + 10000000, 0 + 1 / M + 1 / M + 1 / M + 1 / M + 1 / M,
        0 + 10000000, 1⟩ =
      .inl (.hit v 5285 (5, 5, 5) (some 0) (5, 5, 5) (0, 1, 0)) := by
    unfold ray_step
    rw [if_neg (by rintro ⟨-, h2, -⟩; linarith),
      if_pos (show (get_voxel_id w (5, 5, 5)).voxel_id ≠ 0 by
        rw [show (get_voxel_id w (5, 5, 5)).voxel_id = w 0 5285 from rfl, h5]
        exact hv)]
    show Sum.inl (RayResult.hit (w 0 5285) 5285 (5, 5, 5) (some 0) (5, 5, 5) (0, 1, 0)) =
      Sum.inl (RayResult.hit v 5285 (5, 5, 5) (some 0) (5, 5, 5) (0, 1, 0))
    rw [h5]
  unfold cast_ray
  simp only []
  rw [hdx, hDx, hMx, hdy, hDy, hMy, show qtrunc 5 = 5 by norm_num [qtrunc],
    show qtrunc 10 = 10 by norm_num [qtrunc]]
  rw [show 8 + k = 7 + k + 1 from by omega,
    cast_ray_loop_inr _ _ _ _ _ _ _ _ _ _ hstep1]
  rw [show 7 + k = 6 + k + 1 from by omega,
    cast_ray_loop_inr _ _ _ _ _ _ _ _ _ _ hstep2]
  rw [show 6 + k = 5 + k + 1 from by omega,
    cast_ray_loop_inr _ _ _ _ _ _ _ _ _ _ hstep3]
  rw [show 5 + k = 4 + k + 1 from by omega,
    cast_ray_loop_inr _ _ _ _ _ _ _ _ _ _ hstep4]
  rw [show 4 + k = 3 + k + 1 from by omega,
    cast_ray_loop_inr _ _ _ _ _ _ _ _ _ _ hstep5]
  rw [show 3 + k = 2 + k + 1 from by omega,
    cast_ray_loop_inr _ _ _ _ _ _ _ _ _ _ hstep6]
  rw [show 2 + k = 1 + k + 1 from by omega,
    cast_ray_loop_inr _ _ _ _ _ _ _ _ _ _ hstep7]
  rw [show 1 + k = k + 1 from by omega,
    cast_ray_loop_inl _ _ _ _ _ _ _ _ _ _ hstep8]

/-- A world holding solid voxels at `(5, 5, 5)` and at the ray start
`(5, 10, 5)` (chunk 0, offsets 5285 and 10405), empty in between. -/
def w_blocked : WorldVoxels := fun c i => if c = 0 ∧ (i = 5285 ∨ i = 10405) then 1 else 0

/-- C7 counterexample: a world satisfying every explicit premise of the claim
(solid voxel at `(5, 5, 5)`, all voxels strictly between `(5, 10, 5)` and
`(5, 5, 5)` empty, ray distance 6 at least the travel distance) on which the
ray instead stops immediately inside the solid starting voxel `(5, 10, 5)`,
reporting it with the degenerate normal `(0, 0, 0)` — not a hit at
`(5, 5, 5)` with normal `(0, 1, 0)`. -/
theorem cast_ray_start_inside_claim_false :
    w_blocked 0 5285 = 1 ∧ w_blocked 0 6309 = 0 ∧ w_blocked 0 7333 = 0 ∧
    w_blocked 0 8357 = 0 ∧ w_blocked 0 9381 = 0 ∧
    cast_ray w_blocked (5, 10, 5) (0, -1, 0) 6 8 =
      some (.hit 1 10405 (5, 10, 5) (some 0) (5, 10, 5) (0, 0, 0)) := by
  refine ⟨rfl, rfl, rfl, rfl, rfl, ?_⟩
  obtain ⟨hdx, hDx, hMx⟩ := ray_axis_const5 6
  obtain ⟨hdy, hDy, hMy⟩ := ray_axis_vert 6 (by norm_num)
  have hstep : ray_step w_blocked 0 (-1) 0 10000000 (1 / 6) 10000000
      ⟨(5, 10, 5), 0, 0, 0, -1⟩ =
      .inl (.hit 1 10405 (5, 10, 5) (some 0) (5, 10, 5) (0, 0, 0)) := by
    unfold ray_step
    rw [if_neg (by rintro ⟨h1, -, -⟩; norm_num at h1),
      if_pos (show (get_voxel_id w_blocked (5, 10, 5)).voxel_id ≠ 0 by decide)]
    rfl
  unfold cast_ray
  simp only []
  rw [hdx, hDx, hMx, hdy, hDy, hMy, show qtrunc 5 = 5 by norm_num [qtrunc],
    show qtrunc 10 = 10 by norm_num [qtrunc]]
  rw [show (8 : ℕ) = 7 + 1 from rfl, cast_ray_loop_inl _ _ _ _ _ _ _ _ _ _ hstep]

/-- Witness for C7 amended: the straight-down cast in the world holding only
the voxel at `(5, 5, 5)`, with ray distance exactly 5. -/
theorem cast_ray_straight_down_witness :
    cast_ray w_single (5, 10, 5) (0, -1, 0) 5 (8 + 0) =
      some (.hit 1 5285 (5, 5, 5) (some 0) (5, 5, 5) (0, 1, 0)) :=
  cast_ray_straight_down w_single 5 1 0 (by norm_num) rfl rfl rfl rfl rfl rfl
    (by decide)

/-! ## C10: the is_empty invariant -/

/-- A chunk's voxel view holds no solid voxel. -/
def chunk_all_zero (w : WorldVoxels) (c : ℤ) : Prop :=
  ∀ i < CHUNK_VOLUME, w c i = 0

instance (w : WorldVoxels) (c : ℤ) : Decidable (chunk_all_zero w c) := by
  unfold chunk_all_zero; infer_instance

/-- The cached flag of a chunk agrees with the actual emptiness of its
voxels. -/
def flag_correct (st : WorldState) (c : ℤ) : Prop :=
  st.is_empty c = true ↔ chunk_all_zero st.wv c

/-- The `is_empty` flag `Chunk.build_voxels` (world_objects/chunk.py) leaves
on a freshly generated chunk: initialized `True`, set `False` when
`np.any(voxels)`. -/
def build_voxels_is_empty (v : ℕ → ℕ) : Bool :=
  !((List.range CHUNK_VOLUME).any fun i => v i != 0)

/-- The truncated-division local coordinate lies in `(-CHUNK_SIZE,
CHUNK_SIZE)` whenever the truncated quotient is nonnegative. -/
lemma tdiv_local_range (a : ℤ) (h : 0 ≤ a.tdiv (CHUNK_SIZE : ℤ)) :
    -(CHUNK_SIZE : ℤ) < a - a.tdiv (CHUNK_SIZE : ℤ) * (CHUNK_SIZE : ℤ) ∧
      a - a.tdiv (CHUNK_SIZE : ℤ) * (CHUNK_SIZE : ℤ) < (CHUNK_SIZE : ℤ) := by
  simp only [CHUNK_SIZE] at *
  push_cast at *
  rcases le_or_lt 0 a with ha | ha
  · have e := Int.tdiv_eq_ediv ha (show (0 : ℤ) ≤ 32 by norm_num)
    rw [e] at *
    omega
  · have e : (-a).tdiv 32 = (-a) / 32 :=
      Int.tdiv_eq_ediv (by omega) (show (0 : ℤ) ≤ 32 by norm_num)
    have e2 := Int.neg_tdiv a 32
    omega

/-- In the in-bounds branch of `get_voxel_id`, the raw voxel index lies in
`(-CHUNK_VOLUME, CHUNK_VOLUME)`, so the NumPy access wraps to a valid offset. -/
lemma rc_voxel_index_range (p : ℤ × ℤ × ℤ) (h : get_voxel_id_in_bounds p) :
    npWrap (rc_voxel_index p) < CHUNK_VOLUME := by
  obtain ⟨⟨hx, -⟩, ⟨hy, -⟩, ⟨hz, -⟩⟩ := h
  have h1 := tdiv_local_range p.1 hx
  have h2 := tdiv_local_range p.2.1 hy
  have h3 := tdiv_local_range p.2.2 hz
  unfold rc_voxel_index rc_local npWrap
  simp only [CHUNK_SIZE, CHUNK_AREA, CHUNK_VOLUME] at *
  push_cast at *
  split <;> omega

/-- Pointwise-equal chunk views are equally empty. -/
lemma chunk_all_zero_congr (w w' : WorldVoxels) (c : ℤ)
    (h : ∀ i < CHUNK_VOLUME, w c i = w' c i) :
    (chunk_all_zero w c ↔ chunk_all_zero w' c) := by
  unfold chunk_all_zero
  exact forall_congr' fun i => forall_congr' fun hi => by rw [h i hi]

/-- A world state holding exactly one solid voxel, at world `(0, 0, 0)`
(chunk 0, offset 0), with every chunk's flag matching its contents. -/
def st_one : WorldState :=
  { wv := fun c i => if c = 0 ∧ i = 0 then 1 else 0,
    is_empty := fun c => decide (c ≠ 0) }

/-- The world state `remove_voxel target_origin` produces from `st_one`:
the voxel is zeroed, the flag is untouched. -/
def st_one_after : WorldState :=
  { wv := write_voxel st_one.wv 0 0 0, is_empty := st_one.is_empty }

/-- C10 counterexample: removing the last solid voxel of chunk 0 leaves the
chunk's array all zero but its `is_empty` flag still `false` —
`remove_voxel` never updates the flag, so the claimed invariant breaks. -/
theorem remove_voxel_flag_stale :
    remove_voxel target_origin st_one = .ok st_one_after ∧
    chunk_all_zero st_one_after.wv 0 ∧
    st_one_after.is_empty 0 = false := by
  refine ⟨rfl, ?_, rfl⟩
  intro i hi
  show (if (0 : ℤ) = 0 ∧ i = npWrap 0 then 0 else st_one.wv 0 i) = 0
  split
  · rfl
  · rename_i hcond
    show (if (0 : ℤ) = 0 ∧ i = 0 then 1 else 0) = 0
    rw [if_neg]
    rintro ⟨-, h2⟩
    exact hcond ⟨rfl, by rw [h2]; rfl⟩

/-- C10 amended: the flag/content invariant is established by world
generation and preserved by `add_voxel`; `remove_voxel` preserves only the
forward direction (a flagged-empty chunk really is empty) and can leave
`is_empty = false` on a chunk it has just emptied. -/
theorem is_empty_invariant :
    (∀ v : ℕ → ℕ,
      build_voxels_is_empty v = true ↔ (∀ i < CHUNK_VOLUME, v i = 0)) ∧
    (∀ (s : HandlerTarget) (new_voxel_id : ℕ) (st st' : WorldState),
      new_voxel_id ≠ 0 → (∀ c, flag_correct st c) →
      add_voxel s new_voxel_id st = .ok st' → ∀ c, flag_correct st' c) ∧
    (∀ (s : HandlerTarget) (st st' : WorldState),
      (∀ c, st.is_empty c = true → chunk_all_zero st.wv c) →
      remove_voxel s st = .ok st' →
      ∀ c, st'.is_empty c = true → chunk_all_zero st'.wv c) := by
  refine ⟨?_, ?_, ?_⟩
  · intro v
    unfold build_voxels_is_empty
    simp only [Bool.not_eq_true', List.any_eq_false, List.mem_range, bne_iff_ne, ne_eq,
      not_not]
  · intro s new_voxel_id st st' hnid hinv heq c'
    unfold add_voxel at heq
    rcases eq_or_ne s.voxel_id 0 with h0 | h0
    · rw [if_neg (fun hc => hc h0)] at heq
      injection heq with heq
      rw [← heq]
      exact hinv c'
    · rw [if_pos h0] at heq
      simp only at heq
      rcases eq_or_ne (get_voxel_id st.wv
          (s.voxel_world_position + s.voxel_normal)).voxel_id 0 with hr | hr
      · rw [if_pos hr] at heq
        rcases hcase : (get_voxel_id st.wv
            (s.voxel_world_position + s.voxel_normal)).chunk with - | cw
        · rw [hcase] at heq
          exact absurd heq (by simp)
        · rw [hcase] at heq
          injection heq with heq
          have hb : get_voxel_id_in_bounds (s.voxel_world_position + s.voxel_normal) := by
            by_contra hoob
            rw [get_voxel_id, if_neg hoob] at hcase
            exact absurd hcase (by simp)
          have hidx : (get_voxel_id st.wv
              (s.voxel_world_position + s.voxel_normal)).voxel_index =
                rc_voxel_index (s.voxel_world_position + s.voxel_normal) := by
            rw [get_voxel_id, if_pos hb]
          rw [← heq]
          rcases eq_or_ne c' cw with hcc | hcc
          · subst hcc
            unfold flag_correct
            constructor
            · intro hfl
              simp at hfl
            · intro hall
              exfalso
              have hlt : npWrap ((get_voxel_id st.wv
                  (s.voxel_world_position + s.voxel_normal)).voxel_index) < CHUNK_VOLUME := by
                rw [hidx]
                exact rc_voxel_index_range _ hb
              have hw := hall _ hlt
              simp only [write_voxel] at hw
              simp at hw
              exact hnid hw
          · unfold flag_correct
            simp only []
            rw [if_neg hcc,
              chunk_all_zero_congr _ st.wv c' fun i hi => by
                simp only [write_voxel]
                rw [if_neg fun hh => hcc hh.1]]
            exact hinv c'
      · rw [if_neg hr] at heq
        injection heq with heq
        rw [← heq]
        exact hinv c'
  · intro s st st' hfwd heq c' hfl
    unfold remove_voxel at heq
    rcases eq_or_ne s.voxel_id 0 with h0 | h0
    · rw [if_neg (fun hc => hc h0)] at heq
      injection heq with heq
      rw [← heq] at hfl ⊢
      exact hfwd c' hfl
    · rw [if_pos h0] at heq
      rcases hcase : s.chunk with - | cw
      · rw [hcase] at heq
        exact absurd heq (by simp)
      · rw [hcase] at heq
        injection heq with heq
        rw [← heq] at hfl ⊢
        intro i hi
        show (if c' = cw ∧ i = npWrap s.voxel_index then 0 else st.wv c' i) = 0
        split
        · rfl
        · exact hfwd c' hfl i hi

/-- The all-zero generated chunk array. -/
def v_zero : ℕ → ℕ := fun _ => 0

/-- An all-empty world state with every flag `true`. -/
def st_empty : WorldState := { wv := w_empty, is_empty := fun _ => true }

/-- The world state `add_voxel target_origin 1` produces from `st_empty`:
voxel id 1 written at world `(0, 1, 0)` (chunk 0, offset 1024), that chunk's
flag cleared. -/
def st_add' : WorldState :=
  { wv := write_voxel st_empty.wv 0 1024 1,
    is_empty := fun c => if c = 0 then false else st_empty.is_empty c }

/-- Witness for C10 amended: the three parts at concrete states. -/
theorem is_empty_invariant_witness :
    (build_voxels_is_empty v_zero = true ↔ (∀ i < CHUNK_VOLUME, v_zero i = 0)) ∧
    (∀ c, flag_correct st_add' c) ∧
    (∀ c, st_one_after.is_empty c = true → chunk_all_zero st_one_after.wv c) := by
  refine ⟨is_empty_invariant.1 v_zero, ?_, ?_⟩
  · refine is_empty_invariant.2.1 target_origin 1 st_empty st_add' (by decide) ?_ rfl
    intro c
    exact ⟨fun _ i hi => rfl, fun _ => rfl⟩
  · refine is_empty_invariant.2.2 target_origin st_one st_one_after ?_ rfl
    intro c hc i hi
    show (if c = 0 ∧ i = 0 then 1 else 0) = 0
    rw [if_neg]
    rintro ⟨h1, -⟩
    rw [h1] at hc
    simp [st_one] at hc

/-- C2 (code bug): at world voxel position `(0, -1, 0)` the chunk coordinates
are `(0, -1, 0)`; the y coordinate is out of range, yet `get_chunk_index`
returns `-100` instead of the documented `-1` sentinel, because `not` in its
guard binds only the first chained comparison. -/
theorem get_chunk_index_bug :
    get_chunk_index (0, -1, 0) = -100 ∧ ((-1 : ℤ) / (CHUNK_SIZE : ℤ) = -1 ∧
      ¬ (0 ≤ (-1 : ℤ) ∧ (-1 : ℤ) < (WORLD_HEIGHT : ℤ))) := by
  decide
